import Mathlib

/-!
Shallow embedding of the `ai-learning-course` repository's pure logic, with
theorems checking the specification's claims about it.

Covered source files:
* `module3-advanced-agents/lesson9-langgraph/solution.py` and `challenge.py`
  (content moderation pipeline over a linear LangGraph `StateGraph`);
* `module2-retrieval-tools/lesson7-agents/solution.py` (calculator tool and
  the `AgentExecutor` configuration of the research agent);
* `module1-foundations/lesson3-memory/solution.py` (`extract_preferences`);
* the node registrations of every `StateGraph` built in lessons 9-12.

Strings are modelled with Lean `String`/`List Char`; Python `str.lower`,
`str.capitalize`, `str.strip` and the `\w` regex class are modelled on their
ASCII behaviour (every string literal occurring in the repository is ASCII).
Python `int` is modelled by `Int`.
-/

namespace AILC

/-- ASCII model of Python `str.lower()`: lower-case each character. -/
def pyLower (s : String) : String :=
  String.mk (s.toList.map Char.toLower)

/-- ASCII model of Python `str.capitalize()`: upper-case the first character,
lower-case the rest. -/
def pyCapitalize (s : String) : String :=
  match s.toList with
  | [] => ""
  | c :: rest => String.mk (Char.toUpper c :: rest.map Char.toLower)

/-- Whitespace characters removed by Python `str.strip()` (ASCII model). -/
def pySpace (c : Char) : Bool :=
  c == ' ' || c == '\t' || c == '\n' || c == '\r'

/-- ASCII model of Python `str.strip()`. -/
def pyStrip (s : String) : String :=
  String.mk (((s.toList.dropWhile pySpace).reverse.dropWhile pySpace).reverse)

/-- Boolean test that `n` is a prefix of `h` (model of regex literal matching
at a position). -/
def isPreList : List Char → List Char → Bool
  | [], _ => true
  | _ :: _, [] => false
  | a :: as, b :: bs => a == b && isPreList as bs

/-- Boolean test that `n` occurs as a contiguous substring of `h`: the model
of Python's `needle in haystack` on strings. -/
def isSubList (n : List Char) : List Char → Bool
  | [] => isPreList n []
  | c :: rest => isPreList n (c :: rest) || isSubList n rest

/-- Python `word in content` for Lean strings. -/
def strIn (needle hay : String) : Bool :=
  isSubList needle.toList hay.toList

theorem isPreList_iff (n h : List Char) :
    isPreList n h = true ↔ ∃ t, n ++ t = h := by
  induction n generalizing h with
  | nil => simp [isPreList]
  | cons a as ih =>
    cases h with
    | nil => simp [isPreList]
    | cons b bs =>
      simp only [isPreList, Bool.and_eq_true, beq_iff_eq, ih]
      constructor
      · rintro ⟨rfl, t, rfl⟩; exact ⟨t, rfl⟩
      · rintro ⟨t, ht⟩
        injection ht with h1 h2
        exact ⟨h1, t, h2⟩

theorem isSubList_iff (n h : List Char) :
    isSubList n h = true ↔ ∃ p q, p ++ n ++ q = h := by
  induction h with
  | nil =>
    simp only [isSubList, isPreList_iff]
    constructor
    · rintro ⟨t, ht⟩
      exact ⟨[], t, by simpa using ht⟩
    · rintro ⟨p, q, hpq⟩
      have hp : p = [] := by
        cases p with
        | nil => rfl
        | cons x xs => simp at hpq
      subst hp
      exact ⟨q, by simpa using hpq⟩
  | cons c rest ih =>
    simp only [isSubList, Bool.or_eq_true, isPreList_iff, ih]
    constructor
    · rintro (⟨t, ht⟩ | ⟨p, q, hpq⟩)
      · exact ⟨[], t, by simpa using ht⟩
      · exact ⟨c :: p, q, by simpa using hpq⟩
    · rintro ⟨p, q, hpq⟩
      cases p with
      | nil => exact Or.inl ⟨q, by simpa using hpq⟩
      | cons x xs =>
        right
        injection hpq with h1 h2
        exact ⟨xs, q, h2⟩

/-! ## Lesson 9: content moderation pipeline (`lesson9-langgraph/solution.py`) -/

/-- State of the moderation pipeline: the `ModerationState` TypedDict of lesson 9 (both solution and challenge). -/
structure ModerationState where
  content : String
  language : String
  is_toxic : Bool
  sentiment : String
  decision : String
  reason : String
  checks : Int
deriving Repr, DecidableEq

/-- Node `detect_language`: sets `language` to `"en"` and bumps `checks`. -/
def detect_language (s : ModerationState) : ModerationState :=
  { s with language := "en", checks := s.checks + 1 }

/-- Toxic keyword list of `solution.py` line 38. -/
def toxic_words : List String := ["spam", "hate", "abuse", "scam", "fraud"]

/-- Toxic keyword list of `challenge.py` line 43. -/
def toxic_words_challenge : List String := ["spam", "hate", "abuse"]

/-- Node `check_toxicity` of `solution.py`: keyword substring test on the
lower-cased content, then bump `checks`. -/
def check_toxicity (s : ModerationState) : ModerationState :=
  { s with is_toxic := toxic_words.any (fun w => strIn w (pyLower s.content)),
           checks := s.checks + 1 }

/-- Node `check_toxicity` of `challenge.py` (shorter keyword list). -/
def check_toxicity_challenge (s : ModerationState) : ModerationState :=
  { s with is_toxic := toxic_words_challenge.any (fun w => strIn w (pyLower s.content)),
           checks := s.checks + 1 }

/-- Positive keyword list of `solution.py` line 46. -/
def positive_words : List String := ["great", "awesome", "love", "excellent", "amazing"]

/-- Negative keyword list of `solution.py` line 47. -/
def negative_words : List String := ["bad", "hate", "terrible", "awful", "worst"]

/-- Node `analyze_sentiment` of `solution.py`: counts the positive and
negative keywords occurring in the lower-cased content and compares. -/
def analyze_sentiment (s : ModerationState) : ModerationState :=
  let content_lower := pyLower s.content
  let pos_count := (positive_words.filter (fun w => strIn w content_lower)).length
  let neg_count := (negative_words.filter (fun w => strIn w content_lower)).length
  { s with
    sentiment :=
      if neg_count < pos_count then "positive"
      else if pos_count < neg_count then "negative"
      else "neutral",
    checks := s.checks + 1 }

/-- Node `make_decision` of `solution.py` lines 64-76.  The branch conditions
are transcribed verbatim, including the redundant `not is_toxic` conjunct. -/
def make_decision (s : ModerationState) : ModerationState :=
  if s.is_toxic then
    { s with decision := "reject", reason := "Toxic content detected" }
  else if s.sentiment == "positive" && !s.is_toxic then
    { s with decision := "approve", reason := "Clean and positive content" }
  else
    { s with decision := "review", reason := "Neutral content requires human review" }

/-- The log entry built by `log_decision` (lines 81-89); JSON serialisation
is abstracted to the ordered field list, `ts` standing for
`datetime.now().isoformat()`. -/
def log_entry (ts : String) (s : ModerationState) : List (String × String) :=
  [("timestamp", ts),
   ("content", String.mk (s.content.toList.take 50) ++ "..."),
   ("decision", s.decision),
   ("reason", s.reason),
   ("sentiment", s.sentiment),
   ("is_toxic", if s.is_toxic then "True" else "False"),
   ("checks", toString s.checks)]

/-- Node `log_decision`: tries to append the entry to the log file; the bare
`except: pass` discards a failed append.  `appendOk` models whether the file
append succeeds; the returned state is the input state on both paths, and the
`Option` component is the line appended to the log (none on failure). -/
def log_decision (appendOk : Bool) (ts : String) (s : ModerationState) :
    ModerationState × Option (List (String × String)) :=
  (s, if appendOk then some (log_entry ts s) else none)

/-- LangGraph `END` sentinel. -/
def endNode : String := "__end__"

/-- Node registrations of `create_moderation_pipeline` (`solution.py` lines
106-110), in registration order; `log_decision` is run for its state
component, the file append being an external effect. -/
def moderation_nodes (appendOk : Bool) (ts : String) :
    List (String × (ModerationState → ModerationState)) :=
  [("detect_language", detect_language),
   ("check_toxicity", check_toxicity),
   ("analyze_sentiment", analyze_sentiment),
   ("make_decision", make_decision),
   ("log_decision", fun s => (log_decision appendOk ts s).1)]

/-- Edges of `create_moderation_pipeline` (`solution.py` lines 113-118). -/
def moderation_edges : List (String × String) :=
  [("detect_language", "check_toxicity"),
   ("check_toxicity", "analyze_sentiment"),
   ("analyze_sentiment", "make_decision"),
   ("make_decision", "log_decision"),
   ("log_decision", endNode)]

/-- Entry point of the moderation graph (`set_entry_point`). -/
def moderation_entry : String := "detect_language"

/-- The unconditional edge out of node `n`, if any. -/
def nextNode (n : String) : Option String :=
  (moderation_edges.find? (fun p => p.1 == n)).map (fun p => p.2)

/-- The node function registered under name `n`, if any. -/
def lookupNode (appendOk : Bool) (ts : String) (n : String) :
    Option (ModerationState → ModerationState) :=
  ((moderation_nodes appendOk ts).find? (fun p => p.1 == n)).map (fun p => p.2)

/-- Fuel-bounded executor for the compiled moderation graph: starting from a
node name, apply its function and follow the unconditional edge until `END`.
The fuel mirrors LangGraph's default `recursion_limit` of 25. -/
def runFrom (appendOk : Bool) (ts : String) :
    Nat → String → ModerationState → ModerationState
  | 0, _, s => s
  | Nat.succ fuel, n, s =>
    if n == endNode then s
    else
      match lookupNode appendOk ts n with
      | none => s
      | some f =>
        match nextNode n with
        | none => f s
        | some m => runFrom appendOk ts fuel m (f s)

/-- Invocation (`app.invoke`) of the compiled moderation pipeline. -/
def invokePipeline (appendOk : Bool) (ts : String) (s : ModerationState) :
    ModerationState :=
  runFrom appendOk ts 25 moderation_entry s

/-- The sequence of node names visited by the executor. -/
def traceFrom : Nat → String → List String
  | 0, _ => []
  | Nat.succ fuel, n =>
    if n == endNode then []
    else
      match nextNode n with
      | none => [n]
      | some m => n :: traceFrom fuel m

/-- Node trace of one pipeline invocation. -/
def pipelineTrace : List String := traceFrom 25 moderation_entry

/-- The executed pipeline is the sequential composition of the five node
functions in registration order. -/
theorem invokePipeline_eq (appendOk : Bool) (ts : String) (s : ModerationState) :
    invokePipeline appendOk ts s =
      (log_decision appendOk ts
        (make_decision (analyze_sentiment (check_toxicity (detect_language s))))).1 :=
  rfl

/-! ## Lesson 7: research agent (`lesson7-agents/solution.py`) -/

/-- Character whitelist of the `calculator` tool (line 38). -/
def allowedChars : List Char := "0123456789+-*/(). ".toList

/-- The `calculator` tool (lines 33-44).  Python's `eval` is an external
interpreter, passed in as the oracle `ev`: `Except.ok r` stands for a normal
result whose string form is `r`, `Except.error m` for an exception with
message `m`.  The surrounding `try/except Exception` makes the tool total. -/
def calculator (ev : String → Except String String) (expression : String) : String :=
  if expression.toList.all (fun c => allowedChars.contains c) then
    match ev expression with
    | Except.ok result => expression ++ " = " ++ result
    | Except.error e => "Error: " ++ e
  else
    "Error: Invalid characters"

/-- The `AgentExecutor` keyword configuration used by
`create_research_agent` (lines 89-96). -/
structure AgentExecutorConfig where
  verbose : Bool
  max_iterations : Nat
  handle_parsing_errors : Bool
deriving Repr, DecidableEq

/-- The configuration values passed in `create_research_agent`. -/
def research_agent_config : AgentExecutorConfig :=
  ⟨true, 10, true⟩

/-- Modelled from the spec: the `AgentExecutor` iteration loop is library
code (LangChain), not in this repository.  Per the spec's ReAct description
("Reasoning + Acting agent pattern alternating thought/action/observation
steps"), the executor repeats action/observation iterations until the agent
signals a final answer or `max_iterations` is reached.  `finishes i` tells
whether the agent produces its final answer after `i` completed iterations;
the function returns the number of iterations actually performed. -/
def reactLoop (finishes : Nat → Bool) : Nat → Nat → Nat
  | 0, done => done
  | Nat.succ fuel, done =>
    if finishes done then done else reactLoop finishes fuel (done + 1)

/-- Iterations performed by an executor with configuration `cfg`. -/
def iterationsUsed (cfg : AgentExecutorConfig) (finishes : Nat → Bool) : Nat :=
  reactLoop finishes cfg.max_iterations 0

theorem reactLoop_le (finishes : Nat → Bool) :
    ∀ fuel done, reactLoop finishes fuel done ≤ fuel + done := by
  intro fuel
  induction fuel with
  | zero => intro done; simp [reactLoop]
  | succ n ih =>
    intro done
    rw [reactLoop]
    by_cases h : finishes done = true
    · rw [if_pos h]; omega
    · rw [if_neg h]
      have := ih (done + 1)
      omega

/-! ## Lesson 3: preference extraction (`lesson3-memory/solution.py`) -/

/-- Apostrophe character (used in the patterns containing `i'm`). -/
def apos : Char := Char.ofNat 39

/-- ASCII model of the regex class `\w`. -/
def isWordChar (c : Char) : Bool :=
  c.isAlphanum || c == '_'

/-- Model of `re.search(lit ++ "(\w+)", cs)`: find the leftmost position
where the literal `lit` matches and is followed by at least one word
character; the capture is the maximal word-character run there (greedy
`\w+`). A position where `lit` matches but no word character follows does
not match, and the scan continues at the next position. -/
def searchLitWord (lit : List Char) : List Char → Option (List Char)
  | [] => none
  | c :: rest =>
    if isPreList lit (c :: rest) then
      let cap := ((c :: rest).drop lit.length).takeWhile isWordChar
      if cap.isEmpty then searchLitWord lit rest else some cap
    else
      searchLitWord lit rest

/-- Terminator test of the regex tail `(?:\.|$|,)` at the current suffix:
a literal `.` or `,`, the end of the string, or (Python `$`) the position
just before a final newline. -/
def termAt : List Char → Bool
  | [] => true
  | [c] => c == '.' || c == ',' || c == '\n'
  | c :: _ :: _ => c == '.' || c == ','

/-- Lazy capture of `(.+?)(?:\.|$|,)`: consume the shortest non-empty run of
non-newline characters after which the terminator matches.  `acc` holds the
consumed characters in reverse. -/
def lazyCap (acc : List Char) (cs : List Char) : Option (List Char) :=
  if acc ≠ [] ∧ termAt cs then some acc.reverse
  else
    match cs with
    | [] => none
    | c :: rest => if c == '\n' then none else lazyCap (c :: acc) rest

/-- Model of `re.search(lit ++ "(.+?)(?:\.|$|,)", cs)`: leftmost position
where the literal matches and the lazy capture succeeds. -/
def searchLitLazy (lit : List Char) : List Char → Option (List Char)
  | [] => none
  | c :: rest =>
    if isPreList lit (c :: rest) then
      match lazyCap [] ((c :: rest).drop lit.length) with
      | some cap => some cap
      | none => searchLitLazy lit rest
    else
      searchLitLazy lit rest

/-- The four name regexes of lines 70-75, each a literal followed by
`(\w+)`. -/
def namePatterns : List (List Char) :=
  ["my name is ".toList,
   'i' :: apos :: "m ".toList,
   "i am ".toList,
   "call me ".toList]

/-- The list `["a", "an", "the"]` of common words (line 81). -/
def articles : List String := ["a", "an", "the"]

/-- The four interest regexes of lines 86-91, each a literal followed by
`(.+?)(?:\.|$|,)`. -/
def interestPatterns : List (List Char) :=
  ["i love ".toList,
   "i like ".toList,
   "i enjoy ".toList,
   ('i' :: apos :: "m interested in ".toList)]

/-- The name-detection loop (lines 77-83): first pattern that matches wins,
the capture is capitalized; a capitalized name found in `articles` is
skipped and the loop continues (the `break` sits inside the filter). -/
def nameLoop : List (List Char) → List Char → Option String
  | [], _ => none
  | pat :: rest, cs =>
    match searchLitWord pat cs with
    | some cap =>
      let nm := pyCapitalize (String.mk cap)
      if articles.contains nm then nameLoop rest cs else some nm
    | none => nameLoop rest cs

/-- The interest-detection loop (lines 93-101): first matching pattern wins
unconditionally (the `break` is outside the dedup check); the capture is
stripped. -/
def interestLoop : List (List Char) → List Char → Option String
  | [], _ => none
  | pat :: rest, cs =>
    match searchLitLazy pat cs with
    | some cap => some (pyStrip (String.mk cap))
    | none => interestLoop rest cs

/-- The `"name"` and `"interests"` keys of the `preferences` dict, the only
keys `extract_preferences` reads or writes; `none` models an absent key. -/
structure Preferences where
  name : Option String
  interests : Option (List String)
deriving Repr, DecidableEq

/-- Function `extract_preferences` (lines 65-103): lower-case the user input, store a
detected name under `"name"`, append a newly detected interest to
`"interests"` (creating the key when absent, skipping duplicates).  The bot
response is accepted and ignored, as in the source. -/
def extract_preferences (user_input : String) (bot_response : String)
    (preferences : Preferences) : Preferences :=
  let user_lower := (pyLower user_input).toList
  let p1 :=
    match nameLoop namePatterns user_lower with
    | some nm => { preferences with name := some nm }
    | none => preferences
  match interestLoop interestPatterns user_lower with
  | some i =>
    let cur := p1.interests.getD []
    { p1 with interests := some (if cur.contains i then cur else cur ++ [i]) }
  | none => p1

/-! ## Node registrations of every `StateGraph` built in lessons 9-12

Each entry pairs a label for the construction site with the list of node
names passed to `add_node`, transcribed from the source. -/

/-- All `StateGraph` constructions of module 3 (lessons 9-12) with their
registered node names. -/
def module3_graphs : List (String × List String) :=
  [("lesson9/demo.py simple_linear_graph", ["uppercase", "exclaim"]),
   ("lesson9/demo.py conditional_routing_graph", ["check", "positive", "negative", "zero"]),
   ("lesson9/demo.py cyclic_graph", ["increment"]),
   ("lesson9/demo.py state_accumulation", ["n1", "n2", "n3"]),
   ("lesson9/challenge.py create_moderation_pipeline",
     ["detect_language", "check_toxicity", "analyze_sentiment", "make_decision", "log_decision"]),
   ("lesson9/solution.py create_moderation_pipeline",
     ["detect_language", "check_toxicity", "analyze_sentiment", "make_decision", "log_decision"]),
   ("lesson10/demo.py sequential team", ["researcher", "writer", "editor"]),
   ("lesson10/demo.py supervisor team", ["supervisor", "math", "code"]),
   ("lesson10/challenge.py project team", ["pm", "dev", "qa"]),
   ("lesson10/solution.py project team", ["pm", "dev", "qa"]),
   ("lesson11/demo.py approval flow", ["analyze", "human_approval", "execute"]),
   ("lesson11/demo.py multi-step approval", ["step1", "step2", "execute"]),
   ("lesson11/challenge.py expense flow", ["categorize", "validate", "human_approval", "finalize"]),
   ("lesson12/demo.py reflection", ["generate", "critique", "revise"]),
   ("lesson12/demo.py plan-execute", ["plan", "execute", "synthesize"]),
   ("lesson12/demo.py self-correction", ["execute", "adjust"]),
   ("lesson12/challenge.py code review", ["generate", "critique", "revise", "check"]),
   ("lesson12/solution.py code review", ["generate", "critique", "revise", "check"])]

/-! ## Helper lemmas -/

theorem make_decision_frame (u : ModerationState) :
    (make_decision u).content = u.content ∧
    (make_decision u).language = u.language ∧
    (make_decision u).is_toxic = u.is_toxic ∧
    (make_decision u).sentiment = u.sentiment ∧
    (make_decision u).checks = u.checks := by
  unfold make_decision
  split
  · exact ⟨rfl, rfl, rfl, rfl, rfl⟩
  · split
    · exact ⟨rfl, rfl, rfl, rfl, rfl⟩
    · exact ⟨rfl, rfl, rfl, rfl, rfl⟩

theorem make_decision_congr (u v : ModerationState)
    (hc : u.content = v.content) (hl : u.language = v.language)
    (ht : u.is_toxic = v.is_toxic) (hs : u.sentiment = v.sentiment)
    (hk : u.checks = v.checks) : make_decision u = make_decision v := by
  obtain ⟨uc, ul, ut, us, ud, ur, uk⟩ := u
  obtain ⟨vc, vl, vt, vs, vd, vr, vk⟩ := v
  simp only at hc hl ht hs hk
  subst hc; subst hl; subst ht; subst hs; subst hk
  by_cases h1 : ut = true
  · simp [make_decision, h1]
  · by_cases h2 : (us == "positive" && !ut) = true
    · simp [make_decision, h1, h2]
    · simp [make_decision, h1, h2]

/-- The five node functions overwrite every state field they read before
using it, so the pipeline result is a function of `content` and `checks`
alone. -/
def coreResult (c : String) (k : Int) : ModerationState :=
  make_decision (analyze_sentiment (check_toxicity (detect_language
    ⟨c, "", false, "", "", "", k⟩)))

theorem invoke_eq_core (appendOk : Bool) (ts : String) (s : ModerationState) :
    invokePipeline appendOk ts s = coreResult s.content s.checks := by
  rw [invokePipeline_eq]
  exact make_decision_congr _ _ rfl rfl rfl rfl rfl

theorem make_decision_dr (u v : ModerationState)
    (ht : u.is_toxic = v.is_toxic) (hs : u.sentiment = v.sentiment) :
    (make_decision u).decision = (make_decision v).decision ∧
    (make_decision u).reason = (make_decision v).reason := by
  by_cases h1 : v.is_toxic = true
  · simp [make_decision, ht, hs, h1]
  · by_cases h2 : v.sentiment = "positive"
    · simp [make_decision, ht, hs, h1, h2]
    · simp [make_decision, ht, hs, h1, h2]

/-! ## Claim theorems -/

/-- C1: the lesson-7 calculator tool returns `"Error: Invalid characters"`
whenever the input has a character outside `'0123456789+-*/(). '`, without
consulting the evaluator; otherwise it returns `"<expression> = <result>"`
when evaluation succeeds and `"Error: <message>"` when evaluation raises.
Totality of `calculator` models that the tool itself never raises. -/
theorem calculator_spec (ev : String → Except String String) (expression : String) :
    ((∃ c ∈ expression.toList, c ∉ allowedChars) →
      calculator ev expression = "Error: Invalid characters") ∧
    ((∀ c ∈ expression.toList, c ∈ allowedChars) →
      (∃ r, ev expression = Except.ok r ∧
        calculator ev expression = expression ++ " = " ++ r) ∨
      (∃ m, ev expression = Except.error m ∧
        calculator ev expression = "Error: " ++ m)) := by
  constructor
  · rintro ⟨c, hc, hnot⟩
    have hall : expression.toList.all (fun c => allowedChars.contains c) = false := by
      rw [Bool.eq_false_iff]
      intro h
      rw [List.all_eq_true] at h
      exact hnot (by simpa using h c hc)
    unfold calculator
    rw [hall]
    rfl
  · intro hall
    have hall' : expression.toList.all (fun c => allowedChars.contains c) = true := by
      rw [List.all_eq_true]
      intro c hc
      simpa using hall c hc
    unfold calculator
    rw [hall']
    cases hev : ev expression with
    | ok r => exact Or.inl ⟨r, rfl, rfl⟩
    | error m => exact Or.inr ⟨m, rfl, rfl⟩

/-- Witness for C1 at concrete inputs: a rejected expression and an accepted
one. -/
theorem calculator_spec_witness :
    calculator (fun _ => Except.ok "4") "2+x" = "Error: Invalid characters" ∧
    calculator (fun _ => Except.ok "4") "2+2" = "2+2 = 4" := by
  constructor
  · exact (calculator_spec (fun _ => Except.ok "4") "2+x").1
      ⟨'x', by decide, by decide⟩
  · rcases (calculator_spec (fun _ => Except.ok "4") "2+2").2 (by decide) with
      ⟨r, hr, hc⟩ | ⟨m, hm, _⟩
    · cases hr; exact hc
    · cases hm

/-- C2: `check_toxicity` (solution and challenge versions) sets `is_toxic`
to true exactly when some word of the respective fixed keyword list occurs
as a substring of the lower-cased content; nothing else enters the test. -/
theorem check_toxicity_keyword_iff (s : ModerationState) :
    ((check_toxicity s).is_toxic = true ↔
      ∃ w ∈ toxic_words, ∃ p q, p ++ w.toList ++ q = (pyLower s.content).toList) ∧
    ((check_toxicity_challenge s).is_toxic = true ↔
      ∃ w ∈ toxic_words_challenge, ∃ p q, p ++ w.toList ++ q = (pyLower s.content).toList) := by
  constructor
  · simp [check_toxicity, strIn, List.any_eq_true, isSubList_iff]
  · simp [check_toxicity_challenge, strIn, List.any_eq_true, isSubList_iff]

/-- C3: the compiled lesson-9 pipeline visits its five nodes once each in
the fixed linear order, and a run from a state with `checks = 0` ends with
`checks = 3` (only the first three nodes increment the counter). -/
theorem moderation_pipeline_linear_checks :
    pipelineTrace = ["detect_language", "check_toxicity", "analyze_sentiment",
      "make_decision", "log_decision"] ∧
    ∀ (appendOk : Bool) (ts : String) (s : ModerationState),
      s.checks = 0 → (invokePipeline appendOk ts s).checks = 3 := by
  constructor
  · rfl
  · intro appendOk ts s h
    rw [invokePipeline_eq]
    show (make_decision (analyze_sentiment (check_toxicity (detect_language s)))).checks = 3
    rw [(make_decision_frame _).2.2.2.2]
    show s.checks + 1 + 1 + 1 = 3
    omega

/-- Witness for C3 at a concrete initial state. -/
theorem moderation_pipeline_linear_checks_witness :
    (invokePipeline true "t" ⟨"ok", "", false, "", "", "", 0⟩).checks = 3 :=
  moderation_pipeline_linear_checks.2 true "t" ⟨"ok", "", false, "", "", "", 0⟩ rfl

/-- C7: `create_research_agent` configures its `AgentExecutor` with
`max_iterations = 10`, and the (spec-modelled) ReAct executor loop therefore
performs at most 10 action/observation iterations for every query. -/
theorem research_agent_iterations_bounded :
    research_agent_config.max_iterations = 10 ∧
    ∀ finishes : Nat → Bool, iterationsUsed research_agent_config finishes ≤ 10 := by
  refine ⟨rfl, fun finishes => ?_⟩
  have := reactLoop_le finishes research_agent_config.max_iterations 0
  simpa [iterationsUsed, research_agent_config] using this

/-- C8: `make_decision` assigns `"reject"` (with reason
`"Toxic content detected"`) iff `is_toxic`, `"approve"` iff non-toxic and
positive sentiment, `"review"` in every remaining case, and never leaves
the decision empty. -/
theorem make_decision_cases (s : ModerationState) :
    ((make_decision s).decision = "reject" ↔ s.is_toxic = true) ∧
    (s.is_toxic = true → (make_decision s).reason = "Toxic content detected") ∧
    ((make_decision s).decision = "approve" ↔
      s.is_toxic = false ∧ s.sentiment = "positive") ∧
    ((make_decision s).decision = "review" ↔
      s.is_toxic = false ∧ s.sentiment ≠ "positive") ∧
    (make_decision s).decision ≠ "" := by
  cases htox : s.is_toxic with
  | true => simp [make_decision, htox]
  | false =>
    by_cases hsent : s.sentiment = "positive"
    · simp [make_decision, htox, hsent]
    · simp [make_decision, htox, hsent]

/-- Witness for C8 at a concrete toxic state. -/
theorem make_decision_cases_witness :
    (make_decision ⟨"c", "en", true, "positive", "", "", 2⟩).reason =
      "Toxic content detected" :=
  (make_decision_cases ⟨"c", "en", true, "positive", "", "", 2⟩).2.1 rfl

/-- C9: `check_toxicity` changes only `is_toxic` and increments `checks` by
exactly one; `content`, `language`, `sentiment`, `decision` and `reason`
are untouched. -/
theorem check_toxicity_frame (s : ModerationState) :
    (check_toxicity s).content = s.content ∧
    (check_toxicity s).language = s.language ∧
    (check_toxicity s).sentiment = s.sentiment ∧
    (check_toxicity s).decision = s.decision ∧
    (check_toxicity s).reason = s.reason ∧
    (check_toxicity s).checks = s.checks + 1 := by
  simp [check_toxicity]

/-- C10: the pipeline outcome depends only on the content: two invocations
on states with equal `content` (here, with arbitrary log-append success and
timestamps, which only affect the discarded log side effect) agree on
`language`, `is_toxic`, `sentiment`, `decision` and `reason`. -/
theorem moderation_pipeline_content_deterministic
    (a1 a2 : Bool) (t1 t2 : String) (s t : ModerationState)
    (h : s.content = t.content) :
    (invokePipeline a1 t1 s).language = (invokePipeline a2 t2 t).language ∧
    (invokePipeline a1 t1 s).is_toxic = (invokePipeline a2 t2 t).is_toxic ∧
    (invokePipeline a1 t1 s).sentiment = (invokePipeline a2 t2 t).sentiment ∧
    (invokePipeline a1 t1 s).decision = (invokePipeline a2 t2 t).decision ∧
    (invokePipeline a1 t1 s).reason = (invokePipeline a2 t2 t).reason := by
  rw [invoke_eq_core, invoke_eq_core, h]
  unfold coreResult
  refine ⟨?_, ?_, ?_, ?_, ?_⟩
  · rw [(make_decision_frame _).2.1, (make_decision_frame _).2.1]; rfl
  · rw [(make_decision_frame _).2.2.1, (make_decision_frame _).2.2.1]; rfl
  · rw [(make_decision_frame _).2.2.2.1, (make_decision_frame _).2.2.2.1]; rfl
  · exact (make_decision_dr
      (analyze_sentiment (check_toxicity (detect_language
        ⟨t.content, "", false, "", "", "", s.checks⟩)))
      (analyze_sentiment (check_toxicity (detect_language
        ⟨t.content, "", false, "", "", "", t.checks⟩))) rfl rfl).1
  · exact (make_decision_dr
      (analyze_sentiment (check_toxicity (detect_language
        ⟨t.content, "", false, "", "", "", s.checks⟩)))
      (analyze_sentiment (check_toxicity (detect_language
        ⟨t.content, "", false, "", "", "", t.checks⟩))) rfl rfl).2

/-- Witness for C10: same content, different other fields, different log
success and timestamps. -/
theorem moderation_pipeline_content_deterministic_witness :
    (invokePipeline true "t1" ⟨"great stuff", "", false, "", "", "", 0⟩).decision =
      (invokePipeline false "t2" ⟨"great stuff", "xx", true, "bad", "d", "r", 7⟩).decision :=
  (moderation_pipeline_content_deterministic true false "t1" "t2"
    ⟨"great stuff", "", false, "", "", "", 0⟩
    ⟨"great stuff", "xx", true, "bad", "d", "r", 7⟩ rfl).2.2.2.1

/-- C4 counterexample: the claim "every `StateGraph` built in lessons 9-12
registers between 3 and 5 nodes" is false: `cyclic_graph` in
`lesson9/demo.py` registers a single node (and `simple_linear_graph` and
the lesson-12 self-correction graph register two). -/
theorem module3_node_count_counterexample :
    ¬ ∀ g ∈ module3_graphs, 3 ≤ g.2.length ∧ g.2.length ≤ 5 := by
  intro h
  have := h ("lesson9/demo.py cyclic_graph", ["increment"]) (by decide)
  simp at this

/-- C4 amended: every `StateGraph` built in lessons 9-12 registers between
1 and 5 nodes (inclusive). -/
theorem module3_node_counts_amended :
    ∀ g ∈ module3_graphs, 1 ≤ g.2.length ∧ g.2.length ≤ 5 := by
  decide

/-- Witness for the amended C4 at the moderation pipeline's graph. -/
theorem module3_node_counts_amended_witness :
    1 ≤ (["detect_language", "check_toxicity", "analyze_sentiment",
          "make_decision", "log_decision"] : List String).length ∧
    (["detect_language", "check_toxicity", "analyze_sentiment",
      "make_decision", "log_decision"] : List String).length ≤ 5 :=
  module3_node_counts_amended
    ("lesson9/solution.py create_moderation_pipeline",
     ["detect_language", "check_toxicity", "analyze_sentiment",
      "make_decision", "log_decision"]) (by decide)

theorem prefs_ext (a b : Preferences) (h1 : a.name = b.name)
    (h2 : a.interests = b.interests) : a = b := by
  obtain ⟨an, ai⟩ := a
  obtain ⟨bn, bi⟩ := b
  simp only at h1 h2
  rw [h1, h2]

theorem contains_interest_update (cur : List String) (i : String) :
    (if cur.contains i then cur else cur ++ [i]).contains i = true := by
  by_cases hc : cur.contains i = true
  · rw [if_pos hc]
    exact hc
  · rw [if_neg hc]
    simp

theorem nodup_interest_update (cur : List String) (i : String) (h : cur.Nodup) :
    (if cur.contains i then cur else cur ++ [i]).Nodup := by
  by_cases hc : cur.contains i = true
  · rw [if_pos hc]
    exact h
  · rw [if_neg hc]
    refine h.append (List.nodup_singleton i) ?_
    rw [List.disjoint_singleton]
    simpa using hc

theorem extract_name_eq (u b : String) (p : Preferences) :
    (extract_preferences u b p).name =
      match nameLoop namePatterns (pyLower u).toList with
      | some nm => some nm
      | none => p.name := by
  simp only [extract_preferences]
  cases hn : nameLoop namePatterns (pyLower u).toList <;>
    cases hi : interestLoop interestPatterns (pyLower u).toList <;> rfl

theorem extract_interests_eq (u b : String) (p : Preferences) :
    (extract_preferences u b p).interests =
      match interestLoop interestPatterns (pyLower u).toList with
      | some i => some (if (p.interests.getD []).contains i
                        then p.interests.getD []
                        else p.interests.getD [] ++ [i])
      | none => p.interests := by
  simp only [extract_preferences]
  cases hn : nameLoop namePatterns (pyLower u).toList <;>
    cases hi : interestLoop interestPatterns (pyLower u).toList <;> rfl

/-- C6: `extract_preferences` is idempotent, and it preserves the absence
of duplicates in the `"interests"` list: the name detected on the repeat
run is the same and is re-stored unchanged, and the interest detected on
the repeat run is already in the list, so its membership guard skips the
append. -/
theorem extract_preferences_idem (u b : String) (p : Preferences) :
    extract_preferences u b (extract_preferences u b p) = extract_preferences u b p ∧
    ((∀ l, p.interests = some l → l.Nodup) →
      ∀ l, (extract_preferences u b p).interests = some l → l.Nodup) := by
  constructor
  · apply prefs_ext
    · rw [extract_name_eq, extract_name_eq]
      cases hn : nameLoop namePatterns (pyLower u).toList <;> rfl
    · rw [extract_interests_eq, extract_interests_eq]
      cases hi : interestLoop interestPatterns (pyLower u).toList with
      | none => rfl
      | some i =>
        simp only [Option.getD_some]
        simp
        split <;> simp_all
  · intro hyp l hl
    rw [extract_interests_eq] at hl
    cases hi : interestLoop interestPatterns (pyLower u).toList with
    | none =>
      rw [hi] at hl
      exact hyp l hl
    | some i =>
      rw [hi] at hl
      have hcur : (p.interests.getD []).Nodup := by
        cases hpi : p.interests with
        | none => simp
        | some l0 => simpa using hyp l0 hpi
      injection hl with hl'
      exact hl' ▸ nodup_interest_update _ _ hcur

/-- Witness for C6 at a concrete input with a nontrivial stored state. -/
theorem extract_preferences_idem_witness :
    extract_preferences "i love cats" ""
        (extract_preferences "i love cats" "" ⟨some "Bob", some ["dogs"]⟩) =
      extract_preferences "i love cats" "" ⟨some "Bob", some ["dogs"]⟩ ∧
    ∀ l, (extract_preferences "i love cats" "" ⟨some "Bob", some ["dogs"]⟩).interests =
        some l → l.Nodup := by
  refine ⟨(extract_preferences_idem "i love cats" "" ⟨some "Bob", some ["dogs"]⟩).1, ?_⟩
  exact (extract_preferences_idem "i love cats" "" ⟨some "Bob", some ["dogs"]⟩).2
    (by intro l hl; cases hl; decide)

/-- The failing input of C5. -/
def c5_failing_input : String :=
  "i" ++ String.mk [apos] ++ "m a doctor"

/-- C5: the article filter of `extract_preferences` never fires: the code
compares the *capitalized* capture against the lower-case list
`["a", "an", "the"]`, so on input `"i'm a doctor"` the captured article
`"a"` is stored as the name `"A"` instead of being filtered out, contrary
to the code's own `# Filter common words` comment. -/
theorem extract_preferences_article_stored :
    (extract_preferences c5_failing_input "" ⟨none, none⟩).name = some "A" := by
  rfl

end AILC
